import Mathlib

/-!
Verification of the posture-corrector calibration core.

The repository's sources under verification are `App` (the top-level React
component, file `src/unnamed/part_000`) and `CalibrationModal`
(`src/react_app/src/components/CalibrationModal.tsx`).  The services they call
(`PostureDetectionService`, `NotificationService`, the calibration store) are
not part of the sources; where a claim needs them they are modelled from the
specification and marked as such in their doc comments.

`CalibrationModal` is embedded as an explicit transition system: React state
updates and the two `useEffect` hooks become a step function over a state
record, driven by discrete events (parent opening/closing the modal, camera
acquisition resolving, user clicks, countdown timer ticks).  The DOM and the
external detection outcome are supplied per-event through a small environment
record; the only structural fact the model imposes on that environment is that
a ref cannot point at a rendered element while the modal is closed (the
component body starts with `if (!isOpen) return null`).
-/

namespace PostureApp

/-- Modelled from the spec (sections 3, 4.3, 4.4): the state of
`PostureDetectionService` that the sources interact with — model readiness,
the persisted `CalibrationBaseline` (its four numeric fields are abstracted
into one opaque payload, no claim inspects them), and the persisted
`CalibrationState` flag (`calibrated = true` means `CALIBRATED`).
`PostureDetectionService` itself is not under the sources. -/
structure ServiceState where
  modelReady : Bool
  baseline : Option Nat
  calibrated : Bool
  deriving DecidableEq

/-- Modelled from the spec (section 4.4): `calibrate` runs detection and the
metric checks — abstracted into the Boolean outcome `ok` supplied by the
environment — and on success persists the measured metrics `m` as the new
baseline, sets `CALIBRATED` and returns `true`; otherwise it returns `false`
without mutating the baseline. -/
def ServiceState.calibrate (s : ServiceState) (ok : Bool) (m : Nat) :
    ServiceState × Bool :=
  if ok then ({ s with baseline := some m, calibrated := true }, true)
  else (s, false)

/-- Modelled from the spec (sections 4.3, 4.4): `clearCalibrationData`
delegates to the store's `clear`, deleting the baseline and setting
`NOT_CALIBRATED`. -/
def ServiceState.clearCalibrationData (s : ServiceState) : ServiceState :=
  { s with baseline := none, calibrated := false }

/-- Modelled from the spec (section 4.4): true iff `CalibrationState` is
`NOT_CALIBRATED`. -/
def ServiceState.isCalibrationNeeded (s : ServiceState) : Bool :=
  !s.calibrated

/-- The per-event view of the external world a countdown tick or a start click
can observe: whether the `videoRef`/`canvasRef` DOM refs are attached, whether
`canvas.getContext` succeeds, and the outcome of the external
`PostureDetectionService.calibrate` call on the captured frame (`calibrateOk`,
with `metrics` the measured payload persisted on success; a service rejection
lands in the same `catch` as a `false` result and is represented by
`calibrateOk = false`). -/
structure CalibEnv where
  videoOk : Bool
  canvasOk : Bool
  ctxOk : Bool
  calibrateOk : Bool
  metrics : Nat
  deriving DecidableEq

/-- The state of one mounted `CalibrationModal` (file
`src/react_app/src/components/CalibrationModal.tsx`), together with
instrumentation counters (`calibrateCalls`, `framesCaptured`,
`completeEmits`) recording the externally observable calls the component has
made.  `streams` records every camera stream `getUserMedia` has resolved with,
`true` meaning all of its tracks have been stopped; `streamRef` is the
component's `streamRef.current` as an index into `streams`.  `pendingCamera`
counts `getUserMedia` requests in flight and `timerPending` is the `setTimeout`
scheduled by the countdown effect. -/
structure ModalState where
  isOpen : Bool
  step : Nat
  countdown : Int
  calibrating : Bool
  error : Option String
  streamRef : Option Nat
  streams : List Bool
  pendingCamera : Nat
  timerPending : Bool
  service : ServiceState
  calibrateCalls : Nat
  framesCaptured : Nat
  completeEmits : Nat
  deriving DecidableEq

/-- Cleanup shared by the `isOpen` effect and its teardown (lines 24-41):
stop every track of the currently held stream and null the ref. -/
def stopStream (s : ModalState) : ModalState :=
  { s with streams := (match s.streamRef with
                       | some i => s.streams.set i true
                       | none => s.streams),
           streamRef := none }

/-- `performCalibration` (lines 86-130): flag `calibrating`, clear the error,
capture one frame from the video into the canvas and call
`postureDetectionService.calibrate` on it; on success go to step 3, on a
`false` result throw "Calibration failed. Please try again."; any throw is
caught, recorded in `error` and sends the modal back to step 1.  The guards
mirror the source checks: missing `videoRef`/`canvasRef` and a missing 2d
context each throw before a frame is captured. -/
def performCalibration (s : ModalState) (e : CalibEnv) : ModalState :=
  let s0 := { s with calibrating := true, error := none }
  if e.videoOk && e.canvasOk then
    if e.ctxOk then
      let s1 := { s0 with framesCaptured := s0.framesCaptured + 1 }
      let r := s1.service.calibrate e.calibrateOk e.metrics
      let s2 := { s1 with service := r.1, calibrateCalls := s1.calibrateCalls + 1 }
      if r.2 then { s2 with step := 3, calibrating := false }
      else { s2 with step := 1,
                     error := some "Calibration failed. Please try again.",
                     calibrating := false }
    else { s0 with step := 1,
                   error := some "Could not get canvas context",
                   calibrating := false }
  else { s0 with step := 1,
                 error := some "Video or canvas reference not available",
                 calibrating := false }

/-- The countdown effect (lines 44-56), run after every change of its
dependencies `[step, countdown]`: the previous timer has been cleared by the
effect teardown; while `step = 2` and the countdown is positive a new
one-second timer is scheduled, and when the countdown reaches 0 at `step = 2`
the effect invokes `performCalibration`. -/
def countdownEffect (s : ModalState) (e : CalibEnv) : ModalState :=
  if s.step = 2 ∧ 0 < s.countdown then { s with timerPending := true }
  else if s.step = 2 ∧ s.countdown = 0 then
    performCalibration { s with timerPending := false } e
  else { s with timerPending := false }

/-- `startCalibration` (lines 81-84): `setStep(2); setCountdown(5)`. -/
def startCalibration (s : ModalState) : ModalState :=
  { s with step := 2, countdown := 5 }

/-- DOM consistency of an environment with the component state: a ref can only
be attached to a rendered element, and a closed modal renders nothing
(line 137, `if (!isOpen) return null`), so while the modal is closed both refs
are null.  Nothing further is assumed about which step renders which element. -/
def envConsistent (s : ModalState) (e : CalibEnv) : Bool :=
  (!e.videoOk || s.isOpen) && (!e.canvasOk || s.isOpen)

/-- The discrete events driving `CalibrationModal`: the parent toggling
`isOpen`, a `getUserMedia` request from `initCamera` resolving or rejecting,
the user clicking "Start Calibration", a countdown timer firing, and the user
clicking "Continue" on the success view. -/
inductive Ev where
  | opened
  | closed
  | camOk
  | camErr
  | clickStart (e : CalibEnv)
  | tick (e : CalibEnv)
  | clickComplete
  deriving DecidableEq

/-- One step of the modal.  `opened`/`closed` are the `isOpen` effect
(lines 24-41): the teardown of the previous run stops and nulls any held
stream, then opening issues a fresh `initCamera` camera request.  `camOk`
resolves a pending request — note the source guards nothing here, so the
resolved stream is stored in `streamRef` even if the modal has closed in the
meantime.  `camErr` is the `catch` in `initCamera` (lines 75-78).
`clickStart` is the step-1 "Start Calibration" button; the state update
re-runs the countdown effect.  `tick` is the scheduled one-second timer:
`setCountdown(countdown - 1)` followed by the countdown effect re-run.
`clickComplete` is the step-3 "Continue" button running `handleComplete`
(lines 132-135): emit `onCalibrationComplete`, then `onClose`, which in `App`
closes the modal (so the `isOpen` teardown also runs). -/
def Modal.next (s : ModalState) : Ev → Option ModalState
  | .opened =>
    if s.isOpen then none
    else
      let s1 := stopStream s
      some { s1 with isOpen := true, pendingCamera := s1.pendingCamera + 1 }
  | .closed =>
    if s.isOpen then
      let s1 := stopStream s
      some { s1 with isOpen := false }
    else none
  | .camOk =>
    if 0 < s.pendingCamera then
      some { s with streams := s.streams ++ [false],
                    streamRef := some s.streams.length,
                    pendingCamera := s.pendingCamera - 1 }
    else none
  | .camErr =>
    if 0 < s.pendingCamera then
      some { s with
        error := some "Could not access camera. Please check permissions and try again.",
        pendingCamera := s.pendingCamera - 1 }
    else none
  | .clickStart e =>
    if s.isOpen = true ∧ s.step = 1 then
      some (countdownEffect (startCalibration s) e)
    else none
  | .tick e =>
    if s.timerPending = true ∧ envConsistent s e = true then
      some (countdownEffect { s with timerPending := false,
                                     countdown := s.countdown - 1 } e)
    else none
  | .clickComplete =>
    if s.isOpen = true ∧ s.step = 3 then
      let s1 := stopStream { s with completeEmits := s.completeEmits + 1 }
      some { s1 with isOpen := false }
    else none

/-- Run a list of events from a state; `none` if some event is not enabled. -/
def Modal.run (s : ModalState) : List Ev → Option ModalState
  | [] => some s
  | ev :: evs =>
    match Modal.next s ev with
    | some s' => Modal.run s' evs
    | none => none

/-- The freshly mounted modal (lines 15-21): closed, `step = 1`,
`countdown = 5`, not calibrating, no error, no stream, over a given service
state. -/
def initModal (svc : ServiceState) : ModalState :=
  { isOpen := false, step := 1, countdown := 5, calibrating := false,
    error := none, streamRef := none, streams := [], pendingCamera := 0,
    timerPending := false, service := svc, calibrateCalls := 0,
    framesCaptured := 0, completeEmits := 0 }

/-- States reachable from a freshly mounted modal over any service state. -/
inductive Reachable : ModalState → Prop where
  | init (svc : ServiceState) : Reachable (initModal svc)
  | next {s s' : ModalState} {ev : Ev} :
      Reachable s → Modal.next s ev = some s' → Reachable s'

/-- An environment with no DOM attached and a failing service, as seen by a
timer firing while the modal is closed. -/
def deadEnv : CalibEnv :=
  { videoOk := false, canvasOk := false, ctxOk := false,
    calibrateOk := false, metrics := 0 }

/-- An environment where the DOM refs are attached, the 2d context is
available and the external calibrate call succeeds with payload 42. -/
def liveEnv : CalibEnv :=
  { videoOk := true, canvasOk := true, ctxOk := true,
    calibrateOk := true, metrics := 42 }

/-- `PostureSettings` (file `src/unnamed/part_000`, lines 12-18): the
configuration record held in `App` state.  Numeric fields are rationals
(the source values are `15`, `20`, `0.6` and `60000`). -/
structure PostureSettings where
  shoulderAlignmentThreshold : ℚ
  slouchThreshold : ℚ
  detectionConfidence : ℚ
  enableNotifications : Bool
  notificationInterval : ℚ
  deriving DecidableEq

/-- Modelled from the spec (section 4.6): the state of `NotificationService`
that `App` mutates through `setEnabled` and `setCooldown`; the service itself
is not under the sources. -/
structure NotifState where
  enabled : Bool
  cooldownMs : ℚ
  deriving DecidableEq

/-- Modelled from the spec (section 4.6): toggle alert dispatch. -/
def NotifState.setEnabled (n : NotifState) (b : Bool) : NotifState :=
  { n with enabled := b }

/-- Modelled from the spec (section 4.6): set the minimum alert interval. -/
def NotifState.setCooldown (n : NotifState) (q : ℚ) : NotifState :=
  { n with cooldownMs := q }

/-- Modelled from the spec (sections 3 and 6): the `PostureSettings` copy
consumed by `PostureDetectionService` on each `classify`/`calibrate` call.
`PostureDetectionService` and `CameraFeed` are not under the sources; this
record stands for whatever configuration those calls actually read.  No code
path in `App` writes it: `handleSettingChange` forwards only the two
notification fields to `NotificationService`, and `CameraFeed` is rendered
with the single prop `onCalibrationNeeded` (line 158). -/
structure DetectionConfig where
  shoulderAlignmentThreshold : ℚ
  slouchThreshold : ℚ
  detectionConfidence : ℚ
  deriving DecidableEq

/-- The `App` component state (lines 10-18). -/
structure AppState where
  showSettings : Bool
  showCalibration : Bool
  settings : PostureSettings
  deriving DecidableEq

/-- `App`'s state together with the service singletons it calls into. -/
structure World where
  app : AppState
  notif : NotifState
  svc : ServiceState
  svcConfig : DetectionConfig
  deriving DecidableEq

/-- The initial settings literal (lines 12-18). -/
def initialSettings : PostureSettings :=
  { shoulderAlignmentThreshold := 15, slouchThreshold := 20,
    detectionConfidence := 3/5, enableNotifications := true,
    notificationInterval := 60000 }

/-- The initial `App` state (lines 10-18). -/
def appInit : AppState :=
  { showSettings := false, showCalibration := false,
    settings := initialSettings }

/-- The keys of `PostureSettings` (`keyof PostureSettings`). -/
inductive SettingKey where
  | shoulderAlignmentThreshold
  | slouchThreshold
  | detectionConfidence
  | enableNotifications
  | notificationInterval
  deriving DecidableEq

/-- A `number | boolean` value as passed to `handleSettingChange`. -/
inductive SettingValue where
  | num (q : ℚ)
  | flag (b : Bool)
  deriving DecidableEq

/-- The computed-key update `{ ...prev, [key]: value }` of the settings
record; a value of the wrong kind for the key leaves the record unchanged
(every call site passes the matching kind). -/
def PostureSettings.setKey (s : PostureSettings) (k : SettingKey)
    (v : SettingValue) : PostureSettings :=
  match k, v with
  | .shoulderAlignmentThreshold, .num q => { s with shoulderAlignmentThreshold := q }
  | .slouchThreshold, .num q => { s with slouchThreshold := q }
  | .detectionConfidence, .num q => { s with detectionConfidence := q }
  | .enableNotifications, .flag b => { s with enableNotifications := b }
  | .notificationInterval, .num q => { s with notificationInterval := q }
  | _, _ => s

/-- `handleSettingChange` (lines 44-56): update the `App`-local settings
state, then forward `enableNotifications` to `notificationService.setEnabled`
and `notificationInterval` to `notificationService.setCooldown`; no other
key is forwarded anywhere. -/
def handleSettingChange (w : World) (k : SettingKey) (v : SettingValue) :
    World :=
  let w1 := { w with app := { w.app with settings := w.app.settings.setKey k v } }
  match k, v with
  | .enableNotifications, .flag b => { w1 with notif := w1.notif.setEnabled b }
  | .notificationInterval, .num q => { w1 with notif := w1.notif.setCooldown q }
  | _, _ => w1

/-- The `checkCalibration` startup effect (lines 21-38): if the model is not
ready, await `loadModel` (its failure is caught and only logged — `loadOk`
abstracts the external outcome); then open the calibration modal iff
`isCalibrationNeeded()`. -/
def checkCalibration (w : World) (loadOk : Bool) : World :=
  let svc :=
    if w.svc.modelReady then w.svc
    else if loadOk then { w.svc with modelReady := true } else w.svc
  let w1 := { w with svc := svc }
  if svc.isCalibrationNeeded then
    { w1 with app := { w1.app with showCalibration := true } }
  else w1

/-- `handleRecalibrate` (lines 58-61): first
`postureDetectionService.clearCalibrationData()`, then
`setShowCalibration(true)`. -/
def handleRecalibrate (w : World) : World :=
  let w1 := { w with svc := w.svc.clearCalibrationData }
  { w1 with app := { w1.app with showCalibration := true } }

/-- `handleCalibrationComplete` (lines 63-65): close the modal. -/
def handleCalibrationComplete (w : World) : World :=
  { w with app := { w.app with showCalibration := false } }

/-- Whether an event is the parent opening the modal. -/
def Ev.isOpenEv : Ev → Bool
  | .opened => true
  | _ => false

/-- The list of events contains no reopening of the modal. -/
def noOpen (evs : List Ev) : Bool :=
  evs.all fun ev => !ev.isOpenEv

/-- An environment where the 2d context is available but the external
calibrate call resolves `false` (e.g. no clear skeleton detected). -/
def failEnv : CalibEnv :=
  { videoOk := true, canvasOk := true, ctxOk := true,
    calibrateOk := false, metrics := 0 }

/-- An environment where the refs are attached but `getContext` fails. -/
def noCtxEnv : CalibEnv :=
  { videoOk := true, canvasOk := true, ctxOk := false,
    calibrateOk := false, metrics := 0 }

/-- A ready, not-yet-calibrated service. -/
def svc0 : ServiceState :=
  { modelReady := true, baseline := none, calibrated := false }

/-- A freshly mounted modal over the ready uncalibrated service. -/
def m0 : ModalState := initModal svc0

/-- Open the modal, acquire the camera, start calibration, let two seconds
elapse (countdown 5 to 3), then the parent dismisses the modal. -/
def traceDismiss : List Ev :=
  [Ev.opened, Ev.camOk, Ev.clickStart liveEnv, Ev.tick liveEnv,
   Ev.tick liveEnv, Ev.closed]

/-- A full successful calibration session (countdown 5 to 0, calibrate
succeeds, user clicks Continue), then the parent reopens the modal and the
user clicks Continue again. -/
def traceSuccess : List Ev :=
  [Ev.opened, Ev.camOk, Ev.clickStart liveEnv, Ev.tick liveEnv,
   Ev.tick liveEnv, Ev.tick liveEnv, Ev.tick liveEnv, Ev.tick liveEnv,
   Ev.clickComplete, Ev.opened, Ev.clickComplete]

/-- The state reached by `traceDismiss`: closed, stuck in step 2 with
countdown 3 and the one-second timer still pending. -/
def sD : ModalState :=
  { isOpen := false, step := 2, countdown := 3, calibrating := false,
    error := none, streamRef := none, streams := [true], pendingCamera := 0,
    timerPending := true, service := svc0, calibrateCalls := 0,
    framesCaptured := 0, completeEmits := 0 }

/-- The state reached by reopening the modal from `sD`. -/
def sDopen : ModalState := { sD with isOpen := true, pendingCamera := 1 }

/-- An open modal on the instructions view with a live camera stream. -/
def mI : ModalState :=
  { isOpen := true, step := 1, countdown := 5, calibrating := false,
    error := none, streamRef := some 0, streams := [false], pendingCamera := 0,
    timerPending := false, service := svc0, calibrateCalls := 0,
    framesCaptured := 0, completeEmits := 0 }

/-- `mI` right after the user clicked "Start Calibration". -/
def mI2 : ModalState := { mI with step := 2, countdown := 5, timerPending := true }

/-- `mI2` after one countdown tick. -/
def mI3 : ModalState := { mI2 with countdown := 4 }

/-- An open countdown-step modal one second from capture. -/
def mI4 : ModalState := { mI2 with countdown := 1 }

/-- `mI4` after the final tick: one frame captured, one successful
`calibrate` call, success view shown. -/
def mI5 : ModalState :=
  { isOpen := true, step := 3, countdown := 0, calibrating := false,
    error := none, streamRef := some 0, streams := [false], pendingCamera := 0,
    timerPending := false,
    service := { modelReady := true, baseline := some 42, calibrated := true },
    calibrateCalls := 1, framesCaptured := 1, completeEmits := 0 }

/-- `mI5` after the user clicked Continue: completion emitted, modal closed,
stream stopped. -/
def mS2 : ModalState :=
  { mI5 with isOpen := false, completeEmits := 1, streams := [true],
             streamRef := none }

/-- `mI5` after the parent closed the modal: stream stopped, ref nulled. -/
def mC1 : ModalState :=
  { mI5 with isOpen := false, streams := [true], streamRef := none }

/-- A calibrated running application in its initial configuration. -/
def w0 : World :=
  { app := appInit,
    notif := { enabled := true, cooldownMs := 60000 },
    svc := { modelReady := true, baseline := some 0, calibrated := true },
    svcConfig := { shoulderAlignmentThreshold := 15, slouchThreshold := 20,
                   detectionConfidence := 3/5 } }

theorem stopStream_fields (s : ModalState) :
    (stopStream s).isOpen = s.isOpen ∧ (stopStream s).step = s.step ∧
    (stopStream s).countdown = s.countdown ∧
    (stopStream s).timerPending = s.timerPending ∧
    (stopStream s).calibrateCalls = s.calibrateCalls ∧
    (stopStream s).framesCaptured = s.framesCaptured ∧
    (stopStream s).completeEmits = s.completeEmits ∧
    (stopStream s).service = s.service ∧
    (stopStream s).pendingCamera = s.pendingCamera ∧
    (stopStream s).error = s.error ∧
    (stopStream s).calibrating = s.calibrating ∧
    (stopStream s).streamRef = none :=
  ⟨rfl, rfl, rfl, rfl, rfl, rfl, rfl, rfl, rfl, rfl, rfl, rfl⟩

theorem performCalibration_fields (s : ModalState) (e : CalibEnv) :
    (performCalibration s e).countdown = s.countdown ∧
    (performCalibration s e).timerPending = s.timerPending ∧
    (performCalibration s e).isOpen = s.isOpen ∧
    (performCalibration s e).completeEmits = s.completeEmits ∧
    (performCalibration s e).streamRef = s.streamRef ∧
    (performCalibration s e).streams = s.streams ∧
    (performCalibration s e).pendingCamera = s.pendingCamera := by
  unfold performCalibration ServiceState.calibrate
  split_ifs <;> simp

theorem performCalibration_noRefs (s : ModalState) (e : CalibEnv)
    (h : (e.videoOk && e.canvasOk) = false) :
    performCalibration s e =
      { s with calibrating := false, step := 1,
               error := some "Video or canvas reference not available" } := by
  unfold performCalibration
  rw [if_neg (by simp [h])]

theorem performCalibration_capture (s : ModalState) (e : CalibEnv)
    (hv : e.videoOk = true) (hc : e.canvasOk = true) (hx : e.ctxOk = true) :
    (performCalibration s e).framesCaptured = s.framesCaptured + 1 ∧
    (performCalibration s e).calibrateCalls = s.calibrateCalls + 1 ∧
    (e.calibrateOk = true →
      performCalibration s e =
        { s with calibrating := false, error := none, step := 3,
                 framesCaptured := s.framesCaptured + 1,
                 calibrateCalls := s.calibrateCalls + 1,
                 service := { s.service with baseline := some e.metrics,
                                             calibrated := true } }) ∧
    (e.calibrateOk = false →
      performCalibration s e =
        { s with calibrating := false,
                 error := some "Calibration failed. Please try again.",
                 step := 1,
                 framesCaptured := s.framesCaptured + 1,
                 calibrateCalls := s.calibrateCalls + 1 }) := by
  unfold performCalibration ServiceState.calibrate
  rw [if_pos (by simp [hv, hc]), if_pos hx]
  cases hok : e.calibrateOk <;> simp [hok]

theorem countdownEffect_fields (s : ModalState) (e : CalibEnv) :
    (countdownEffect s e).countdown = s.countdown ∧
    (countdownEffect s e).step = s.step ∨
    (countdownEffect s e) = performCalibration { s with timerPending := false } e := by
  unfold countdownEffect
  split_ifs <;> simp

/-- The invariant backing the countdown-range claim: the countdown stays in
`[0, 5]`, and a pending countdown timer implies the modal is in the countdown
step with a strictly positive countdown (timers are only scheduled by the
first branch of the countdown effect). -/
def countdownInv (s : ModalState) : Prop :=
  0 ≤ s.countdown ∧ s.countdown ≤ 5 ∧
    (s.timerPending = true → s.step = 2 ∧ 0 < s.countdown)

theorem countdownEffect_inv (s : ModalState) (e : CalibEnv)
    (h0 : 0 ≤ s.countdown) (h5 : s.countdown ≤ 5) :
    countdownInv (countdownEffect s e) := by
  unfold countdownInv countdownEffect
  split_ifs with h1 h2
  · exact ⟨h0, h5, fun _ => h1⟩
  · obtain ⟨hc, ht, -⟩ :=
      performCalibration_fields { s with timerPending := false } e
    rw [hc, ht]
    exact ⟨h0, h5, fun hh => nomatch hh⟩
  · exact ⟨h0, h5, fun hh => nomatch hh⟩

theorem next_preserves_inv {s s' : ModalState} {ev : Ev}
    (hinv : countdownInv s) (h : Modal.next s ev = some s') :
    countdownInv s' := by
  obtain ⟨h0, h5, hp⟩ := hinv
  cases ev <;> simp only [Modal.next] at h
  case opened =>
    split at h
    · exact Option.noConfusion h
    · rw [Option.some_inj] at h
      subst h
      exact ⟨h0, h5, hp⟩
  case closed =>
    split at h
    · rw [Option.some_inj] at h
      subst h
      exact ⟨h0, h5, hp⟩
    · exact Option.noConfusion h
  case camOk =>
    split at h
    · rw [Option.some_inj] at h
      subst h
      exact ⟨h0, h5, hp⟩
    · exact Option.noConfusion h
  case camErr =>
    split at h
    · rw [Option.some_inj] at h
      subst h
      exact ⟨h0, h5, hp⟩
    · exact Option.noConfusion h
  case clickStart e =>
    split at h
    · rw [Option.some_inj] at h
      subst h
      exact countdownEffect_inv _ e (show (0 : Int) ≤ 5 by decide)
        (show (5 : Int) ≤ 5 by decide)
    · exact Option.noConfusion h
  case tick e =>
    split at h
    · rename_i hg
      rw [Option.some_inj] at h
      subst h
      obtain ⟨-, hcd⟩ := hp hg.1
      refine countdownEffect_inv _ e ?_ ?_
      · show (0 : Int) ≤ s.countdown - 1
        omega
      · show s.countdown - 1 ≤ 5
        omega
    · exact Option.noConfusion h
  case clickComplete =>
    split at h
    · rw [Option.some_inj] at h
      subst h
      exact ⟨h0, h5, hp⟩
    · exact Option.noConfusion h

/-- Every reachable modal state satisfies the timer/countdown invariant. -/
theorem reachable_inv {s : ModalState} (h : Reachable s) : countdownInv s := by
  induction h with
  | init svc =>
    exact ⟨show (0 : Int) ≤ 5 by decide, show (5 : Int) ≤ 5 by decide,
      fun hh => nomatch hh⟩
  | next _ hstep ih => exact next_preserves_inv ih hstep

theorem countdownEffect_pos (s : ModalState) (e : CalibEnv)
    (hs : s.step = 2) (hpos : 0 < s.countdown) :
    countdownEffect s e = { s with timerPending := true } := by
  unfold countdownEffect
  rw [if_pos ⟨hs, hpos⟩]

theorem countdownEffect_zero (s : ModalState) (e : CalibEnv)
    (hs : s.step = 2) (h0 : s.countdown = 0) :
    countdownEffect s e = performCalibration { s with timerPending := false } e := by
  unfold countdownEffect
  rw [if_neg (by simp [h0]), if_pos ⟨hs, h0⟩]

/-- While the modal is closed, no enabled event other than a reopening can
capture a frame, call `calibrate` or change the persisted baseline: the
countdown timer does keep firing, but `performCalibration` then finds no
attached refs and fails before capturing. -/
theorem closed_next_preserves {s s' : ModalState} {ev : Ev}
    (hc : s.isOpen = false) (hev : ev ≠ Ev.opened)
    (h : Modal.next s ev = some s') :
    s'.isOpen = false ∧ s'.calibrateCalls = s.calibrateCalls ∧
    s'.framesCaptured = s.framesCaptured ∧
    s'.service.baseline = s.service.baseline := by
  cases ev <;> simp only [Modal.next] at h
  case opened => exact absurd rfl hev
  case closed =>
    split at h
    · rw [Option.some_inj] at h
      subst h
      exact ⟨rfl, rfl, rfl, rfl⟩
    · exact Option.noConfusion h
  case camOk =>
    split at h
    · rw [Option.some_inj] at h
      subst h
      exact ⟨hc, rfl, rfl, rfl⟩
    · exact Option.noConfusion h
  case camErr =>
    split at h
    · rw [Option.some_inj] at h
      subst h
      exact ⟨hc, rfl, rfl, rfl⟩
    · exact Option.noConfusion h
  case clickStart e =>
    split at h
    · rename_i hg
      obtain ⟨h1, -⟩ := hg
      rw [hc] at h1
      exact nomatch h1
    · exact Option.noConfusion h
  case tick e =>
    split at h
    · rename_i hg
      rw [Option.some_inj] at h
      subst h
      have h2 := hg.2
      unfold envConsistent at h2
      rw [hc] at h2
      simp only [Bool.or_false, Bool.and_eq_true, Bool.not_eq_eq_eq_not,
        Bool.not_true] at h2
      have hvc : (e.videoOk && e.canvasOk) = false := by
        simp [h2.1]
      unfold countdownEffect
      split_ifs with h1 h3
      · exact ⟨hc, rfl, rfl, rfl⟩
      · rw [performCalibration_noRefs _ _ hvc]
        exact ⟨hc, rfl, rfl, rfl⟩
      · exact ⟨hc, rfl, rfl, rfl⟩
    · exact Option.noConfusion h
  case clickComplete =>
    split at h
    · rename_i hg
      obtain ⟨h1, -⟩ := hg
      rw [hc] at h1
      exact nomatch h1
    · exact Option.noConfusion h

/-- Along any run of events none of which reopens the modal, a closed modal
stays closed and never captures a frame, calls `calibrate`, or changes the
persisted baseline. -/
theorem closed_run_no_capture {evs : List Ev} :
    ∀ {s s' : ModalState}, s.isOpen = false → noOpen evs = true →
      Modal.run s evs = some s' →
      s'.isOpen = false ∧ s'.calibrateCalls = s.calibrateCalls ∧
      s'.framesCaptured = s.framesCaptured ∧
      s'.service.baseline = s.service.baseline := by
  induction evs with
  | nil =>
    intro s s' hc _ hr
    rw [Modal.run, Option.some_inj] at hr
    subst hr
    exact ⟨hc, rfl, rfl, rfl⟩
  | cons ev evs ih =>
    intro s s' hc hn hr
    have hnc : (!ev.isOpenEv) = true ∧ noOpen evs = true := by
      unfold noOpen at hn ⊢
      rw [List.all_cons, Bool.and_eq_true] at hn
      exact hn
    have hev : ev ≠ Ev.opened := by
      intro he
      subst he
      simp [Ev.isOpenEv] at hnc
    cases hx : Modal.next s ev with
    | none =>
      rw [Modal.run, hx] at hr
      exact Option.noConfusion hr
    | some t =>
      rw [Modal.run, hx] at hr
      obtain ⟨ht1, ht2, ht3, ht4⟩ := closed_next_preserves hc hev hx
      obtain ⟨hs1, hs2, hs3, hs4⟩ := ih ht1 hnc.2 hr
      exact ⟨hs1, hs2.trans ht2, hs3.trans ht3, hs4.trans ht4⟩

/-- A closed modal in the countdown step with a pending timer: the zombie
countdown runs to 0 and the capture attempt fails with the missing-refs
error, landing the modal back in step 1 (the instructions view). -/
theorem closed_ticks_to_instructions (n : Nat) :
    ∀ s : ModalState, s.isOpen = false → s.step = 2 → s.timerPending = true →
      s.countdown = (n : Int) + 1 →
      Modal.run s (List.replicate (n + 1) (Ev.tick deadEnv)) =
        some { s with countdown := 0, timerPending := false, step := 1,
                      calibrating := false,
                      error := some "Video or canvas reference not available" } := by
  induction n with
  | zero =>
    intro s hc hs ht hcd
    have henv : envConsistent s deadEnv = true := rfl
    have hnext : Modal.next s (Ev.tick deadEnv) =
        some (countdownEffect { s with timerPending := false,
                                       countdown := s.countdown - 1 } deadEnv) := by
      simp only [Modal.next]
      rw [if_pos ⟨ht, henv⟩]
    have h0 : s.countdown - 1 = 0 := by omega
    rw [List.replicate_succ, List.replicate, Modal.run, hnext,
      countdownEffect_zero { s with timerPending := false,
                                    countdown := s.countdown - 1 } deadEnv hs h0,
      performCalibration_noRefs _ deadEnv rfl]
    simp only [Modal.run, Option.some_inj]
    rw [show s.countdown - 1 = 0 from h0]
  | succ n ih =>
    intro s hc hs ht hcd
    have henv : envConsistent s deadEnv = true := rfl
    have hnext : Modal.next s (Ev.tick deadEnv) =
        some (countdownEffect { s with timerPending := false,
                                       countdown := s.countdown - 1 } deadEnv) := by
      simp only [Modal.next]
      rw [if_pos ⟨ht, henv⟩]
    have hpos : (0 : Int) < s.countdown - 1 := by omega
    rw [List.replicate_succ, Modal.run, hnext,
      countdownEffect_pos { s with timerPending := false,
                                   countdown := s.countdown - 1 } deadEnv hs hpos]
    exact ih _ hc hs rfl (by push_cast at hcd ⊢; omega)

/-- C9: in every reachable state of `CalibrationModal` the countdown value
lies in the range [0, 5] — it starts at 5, `startCalibration` resets it to 5,
and a tick decrements it only when a timer is pending, which the countdown
effect schedules only while the countdown is strictly positive, so it never
becomes negative. -/
theorem countdown_range_invariant {s : ModalState} (h : Reachable s) :
    0 ≤ s.countdown ∧ s.countdown ≤ 5 :=
  ⟨(reachable_inv h).1, (reachable_inv h).2.1⟩

theorem countdown_range_invariant_witness :
    0 ≤ (initModal svc0).countdown ∧ (initModal svc0).countdown ≤ 5 :=
  countdown_range_invariant (Reachable.init svc0)

/-- C1 counterexample: in a concrete run where the user dismisses the
workflow at 3 seconds remaining, the countdown is not cancelled and the
workflow is not back in the instructions view at the moment of dismissal —
the modal is still in step 2 with the one-second timer pending, and the next
timer firing still decrements the countdown to 2. -/
theorem dismiss_does_not_cancel_countdown :
    (Modal.run m0 traceDismiss).map
      (fun s => (s.isOpen, s.step, s.countdown, s.timerPending)) =
      some (false, 2, 3, true) ∧
    (Modal.run m0 (traceDismiss ++ [Ev.tick deadEnv])).map
      (fun s => (s.step, s.countdown)) = some (2, 2) ∧
    (2 : Nat) ≠ 1 := by
  refine ⟨rfl, rfl, by decide⟩

/-- C1 (amended): dismissing the workflow mid-count does not cancel the
pending countdown timer — the countdown keeps ticking while the modal is
closed — but because a closed modal renders nothing, the capture attempt at 0
fails before touching the camera: along any continuation that does not reopen
the modal, `PostureDetectionService.calibrate` is never invoked, no frame is
captured and the persisted baseline is unchanged, and once the zombie
countdown reaches 0 the workflow settles back in the step-1 instructions view
(with an error message recorded). -/
theorem dismissed_run_no_capture :
    (∀ (s : ModalState) (evs : List Ev) (s' : ModalState),
      s.isOpen = false → noOpen evs = true → Modal.run s evs = some s' →
      s'.calibrateCalls = s.calibrateCalls ∧
      s'.framesCaptured = s.framesCaptured ∧
      s'.service.baseline = s.service.baseline) ∧
    (∀ (n : Nat) (s : ModalState),
      s.isOpen = false → s.step = 2 → s.timerPending = true →
      s.countdown = (n : Int) + 1 →
      ∃ s', Modal.run s (List.replicate (n + 1) (Ev.tick deadEnv)) = some s' ∧
        s'.step = 1 ∧ s'.timerPending = false ∧
        s'.calibrateCalls = s.calibrateCalls ∧
        s'.framesCaptured = s.framesCaptured ∧
        s'.service.baseline = s.service.baseline) := by
  constructor
  · intro s evs s' hc hn hr
    obtain ⟨-, h2, h3, h4⟩ := closed_run_no_capture hc hn hr
    exact ⟨h2, h3, h4⟩
  · intro n s hc hs ht hcd
    exact ⟨_, closed_ticks_to_instructions n s hc hs ht hcd,
      rfl, rfl, rfl, rfl, rfl⟩

theorem dismissed_run_no_capture_witness :
    (sD.isOpen = false ∧ noOpen (List.replicate 3 (Ev.tick deadEnv)) = true) ∧
    (∃ s', Modal.run sD (List.replicate 3 (Ev.tick deadEnv)) = some s' ∧
      s'.step = 1 ∧ s'.timerPending = false ∧
      s'.calibrateCalls = sD.calibrateCalls ∧
      s'.framesCaptured = sD.framesCaptured ∧
      s'.service.baseline = sD.service.baseline) ∧
    (sD.calibrateCalls = sD.calibrateCalls ∧
      sD.framesCaptured = sD.framesCaptured ∧
      sD.service.baseline = sD.service.baseline) :=
  ⟨⟨rfl, rfl⟩,
   dismissed_run_no_capture.2 2 sD rfl rfl rfl (by decide),
   dismissed_run_no_capture.1 sD [] sD rfl rfl rfl⟩

/-- C2 counterexample: reopening the modal right after it was dismissed at 3
seconds remaining resumes in step 2 with countdown 3 — not in the
instructions view with countdown 5. -/
theorem reopen_resumes_countdown :
    (Modal.run m0 (traceDismiss ++ [Ev.opened])).map
      (fun s => (s.isOpen, s.step, s.countdown)) = some (true, 2, 3) ∧
    (2 : Nat) ≠ 1 ∧ (3 : Int) ≠ 5 := by
  refine ⟨rfl, by decide, by decide⟩

/-- C2 (amended): re-entering the workflow does not reset it — opening the
modal preserves `step`, `countdown` and any pending timer, so the modal
resumes exactly where it was dismissed; the countdown is reset to 5 (entering
step 2) only when the user presses "Start Calibration" from the instructions
view. -/
theorem reopen_preserves_progress (s s' u u' : ModalState) (e : CalibEnv)
    (hopen : Modal.next s Ev.opened = some s')
    (hstart : Modal.next u (Ev.clickStart e) = some u') :
    s'.step = s.step ∧ s'.countdown = s.countdown ∧
    s'.timerPending = s.timerPending ∧ u'.step = 2 ∧ u'.countdown = 5 := by
  simp only [Modal.next] at hopen hstart
  have h1 : s'.step = s.step ∧ s'.countdown = s.countdown ∧
      s'.timerPending = s.timerPending := by
    split at hopen
    · exact Option.noConfusion hopen
    · rw [Option.some_inj] at hopen
      subst hopen
      exact ⟨rfl, rfl, rfl⟩
  have h2 : u'.step = 2 ∧ u'.countdown = 5 := by
    split at hstart
    · rw [Option.some_inj] at hstart
      subst hstart
      rw [countdownEffect_pos (startCalibration u) e rfl
        (show (0 : Int) < 5 by decide)]
      exact ⟨rfl, rfl⟩
    · exact Option.noConfusion hstart
  exact ⟨h1.1, h1.2.1, h1.2.2, h2.1, h2.2⟩

theorem reopen_preserves_progress_witness :
    sDopen.step = sD.step ∧ sDopen.countdown = sD.countdown ∧
    sDopen.timerPending = sD.timerPending ∧ mI2.step = 2 ∧ mI2.countdown = 5 :=
  reopen_preserves_progress sD sDopen mI mI2 liveEnv (by decide) (by decide)

/-- C4: starting the workflow from the instructions view begins the countdown
at exactly 5 with a timer scheduled and no capture; a tick with more than one
second left decrements the countdown by exactly 1, reschedules the timer and
performs no capture; and the tick that takes the countdown from 1 to 0
triggers `performCalibration`, which captures exactly one frame and calls
`PostureDetectionService.calibrate` exactly once. -/
theorem countdown_semantics (s s' t t' u u' : ModalState) (e1 e2 e3 : CalibEnv)
    (hstart : Modal.next s (Ev.clickStart e1) = some s')
    (htick : Modal.next t (Ev.tick e2) = some t')
    (hstep : t.step = 2) (hpos : 1 < t.countdown)
    (hfire : Modal.next u (Ev.tick e3) = some u')
    (hustep : u.step = 2) (hu1 : u.countdown = 1)
    (hv : e3.videoOk = true) (hcv : e3.canvasOk = true) (hx : e3.ctxOk = true) :
    (s'.step = 2 ∧ s'.countdown = 5 ∧ s'.timerPending = true ∧
      s'.calibrateCalls = s.calibrateCalls ∧
      s'.framesCaptured = s.framesCaptured) ∧
    (t'.countdown = t.countdown - 1 ∧ t'.timerPending = true ∧
      t'.calibrateCalls = t.calibrateCalls ∧
      t'.framesCaptured = t.framesCaptured) ∧
    (u'.countdown = 0 ∧ u'.framesCaptured = u.framesCaptured + 1 ∧
      u'.calibrateCalls = u.calibrateCalls + 1) := by
  simp only [Modal.next] at hstart htick hfire
  refine ⟨?_, ?_, ?_⟩
  · split at hstart
    · rw [Option.some_inj] at hstart
      subst hstart
      rw [countdownEffect_pos (startCalibration s) e1 rfl
        (show (0 : Int) < 5 by decide)]
      exact ⟨rfl, rfl, rfl, rfl, rfl⟩
    · exact Option.noConfusion hstart
  · split at htick
    · rw [Option.some_inj] at htick
      subst htick
      rw [countdownEffect_pos { t with timerPending := false,
                                       countdown := t.countdown - 1 } e2 hstep
        (show (0 : Int) < t.countdown - 1 by omega)]
      exact ⟨rfl, rfl, rfl, rfl⟩
    · exact Option.noConfusion htick
  · split at hfire
    · rw [Option.some_inj] at hfire
      subst hfire
      rw [countdownEffect_zero { u with timerPending := false,
                                        countdown := u.countdown - 1 } e3 hustep
        (show u.countdown - 1 = 0 by omega)]
      obtain ⟨hcd, -⟩ := performCalibration_fields
        { { u with timerPending := false,
                   countdown := u.countdown - 1 } with timerPending := false } e3
      obtain ⟨hf, hcal, -⟩ := performCalibration_capture
        { { u with timerPending := false,
                   countdown := u.countdown - 1 } with timerPending := false } e3
        hv hcv hx
      refine ⟨?_, hf, hcal⟩
      rw [hcd]
      show u.countdown - 1 = 0
      omega
    · exact Option.noConfusion hfire

theorem countdown_semantics_witness :
    (mI2.step = 2 ∧ mI2.countdown = 5 ∧ mI2.timerPending = true ∧
      mI2.calibrateCalls = mI.calibrateCalls ∧
      mI2.framesCaptured = mI.framesCaptured) ∧
    (mI3.countdown = mI2.countdown - 1 ∧ mI3.timerPending = true ∧
      mI3.calibrateCalls = mI2.calibrateCalls ∧
      mI3.framesCaptured = mI2.framesCaptured) ∧
    (mI5.countdown = 0 ∧ mI5.framesCaptured = mI4.framesCaptured + 1 ∧
      mI5.calibrateCalls = mI4.calibrateCalls + 1) :=
  countdown_semantics mI mI2 mI2 mI3 mI4 mI5 liveEnv liveEnv liveEnv
    (by decide) (by decide) (by decide) (by decide) (by decide) (by decide)
    (by decide) rfl rfl rfl

theorem performCalibration_noCtx (s : ModalState) (e : CalibEnv)
    (hv : e.videoOk = true) (hc : e.canvasOk = true) (hx : e.ctxOk = false) :
    performCalibration s e =
      { s with calibrating := false, step := 1,
               error := some "Could not get canvas context" } := by
  unfold performCalibration
  rw [if_pos (by simp [hv, hc]), if_neg (by simp [hx])]

/-- C5: for every capture attempt, a successful `calibrate` result moves the
workflow to the success view (step 3) with the baseline committed; a `false`
result or a throw inside the capture routine records a human-readable failure
reason in the surfaced `error` state and automatically returns the workflow
to the step-1 instructions view, without touching the service state. -/
theorem performCalibration_outcomes (s : ModalState) (e : CalibEnv) :
    (e.videoOk = true → e.canvasOk = true → e.ctxOk = true →
      e.calibrateOk = true →
      (performCalibration s e).step = 3 ∧
      (performCalibration s e).service.baseline = some e.metrics ∧
      (performCalibration s e).service.calibrated = true) ∧
    (e.videoOk = true → e.canvasOk = true → e.ctxOk = true →
      e.calibrateOk = false →
      (performCalibration s e).step = 1 ∧
      (performCalibration s e).error =
        some "Calibration failed. Please try again." ∧
      (performCalibration s e).service = s.service) ∧
    ((e.videoOk && e.canvasOk) = false →
      (performCalibration s e).step = 1 ∧
      (performCalibration s e).error =
        some "Video or canvas reference not available" ∧
      (performCalibration s e).service = s.service ∧
      (performCalibration s e).framesCaptured = s.framesCaptured) ∧
    (e.videoOk = true → e.canvasOk = true → e.ctxOk = false →
      (performCalibration s e).step = 1 ∧
      (performCalibration s e).error = some "Could not get canvas context" ∧
      (performCalibration s e).service = s.service) := by
  refine ⟨?_, ?_, ?_, ?_⟩
  · intro hv hc hx hok
    obtain ⟨-, -, hsucc, -⟩ := performCalibration_capture s e hv hc hx
    rw [hsucc hok]
    exact ⟨rfl, rfl, rfl⟩
  · intro hv hc hx hok
    obtain ⟨-, -, -, hfail⟩ := performCalibration_capture s e hv hc hx
    rw [hfail hok]
    exact ⟨rfl, rfl, rfl⟩
  · intro hvc
    rw [performCalibration_noRefs s e hvc]
    exact ⟨rfl, rfl, rfl, rfl⟩
  · intro hv hc hx
    rw [performCalibration_noCtx s e hv hc hx]
    exact ⟨rfl, rfl, rfl⟩

theorem performCalibration_outcomes_witness :
    ((performCalibration mI4 liveEnv).step = 3 ∧
      (performCalibration mI4 liveEnv).service.baseline = some liveEnv.metrics ∧
      (performCalibration mI4 liveEnv).service.calibrated = true) ∧
    ((performCalibration mI4 failEnv).step = 1 ∧
      (performCalibration mI4 failEnv).error =
        some "Calibration failed. Please try again." ∧
      (performCalibration mI4 failEnv).service = mI4.service) ∧
    ((performCalibration mI4 deadEnv).step = 1 ∧
      (performCalibration mI4 deadEnv).error =
        some "Video or canvas reference not available" ∧
      (performCalibration mI4 deadEnv).service = mI4.service ∧
      (performCalibration mI4 deadEnv).framesCaptured = mI4.framesCaptured) ∧
    ((performCalibration mI4 noCtxEnv).step = 1 ∧
      (performCalibration mI4 noCtxEnv).error =
        some "Could not get canvas context" ∧
      (performCalibration mI4 noCtxEnv).service = mI4.service) :=
  ⟨(performCalibration_outcomes mI4 liveEnv).1 rfl rfl rfl rfl,
   (performCalibration_outcomes mI4 failEnv).2.1 rfl rfl rfl rfl,
   (performCalibration_outcomes mI4 deadEnv).2.2.1 rfl,
   (performCalibration_outcomes mI4 noCtxEnv).2.2.2 rfl rfl rfl⟩

theorem countdownEffect_emits (s : ModalState) (e : CalibEnv) :
    (countdownEffect s e).completeEmits = s.completeEmits := by
  unfold countdownEffect
  split_ifs with h1 h2
  · rfl
  · exact (performCalibration_fields _ e).2.2.2.1
  · rfl

/-- C6 counterexample: a successful session emits the completion signal and
closes, but the modal keeps `step = 3`, so reopening it and clicking Continue
emits the completion signal a second time — two emissions against a single
successful calibrate call, and the second emission happens in a session that
performed no calibration at all. -/
theorem second_complete_without_calibration :
    (Modal.run m0 traceSuccess).map
      (fun s => (s.completeEmits, s.calibrateCalls)) = some (2, 1) ∧
    (2 : Nat) ≠ 1 :=
  ⟨rfl, by decide⟩

/-- C6 (amended): the completion signal is emitted only by the Continue
button of the success view (step 3, modal open) and each emission closes the
modal, so within one open session at most one signal is emitted; but since
`step` is not reset between sessions, a re-opened modal can start in the
success view and emit a completion signal in a session with no successful
calibration of its own. -/
theorem complete_emission_rules (s s' : ModalState) (ev : Ev)
    (h : Modal.next s ev = some s') :
    (ev = Ev.clickComplete →
      s.isOpen = true ∧ s.step = 3 ∧
      s'.completeEmits = s.completeEmits + 1 ∧ s'.isOpen = false) ∧
    (ev ≠ Ev.clickComplete → s'.completeEmits = s.completeEmits) := by
  cases ev <;> simp only [Modal.next] at h
  case clickComplete =>
    refine ⟨fun _ => ?_, fun hne => absurd rfl hne⟩
    split at h
    · rename_i hg
      rw [Option.some_inj] at h
      subst h
      exact ⟨hg.1, hg.2, rfl, rfl⟩
    · exact Option.noConfusion h
  case opened =>
    refine ⟨(fun heq => nomatch heq), fun _ => ?_⟩
    split at h
    · exact Option.noConfusion h
    · rw [Option.some_inj] at h
      subst h
      rfl
  case closed =>
    refine ⟨(fun heq => nomatch heq), fun _ => ?_⟩
    split at h
    · rw [Option.some_inj] at h
      subst h
      rfl
    · exact Option.noConfusion h
  case camOk =>
    refine ⟨(fun heq => nomatch heq), fun _ => ?_⟩
    split at h
    · rw [Option.some_inj] at h
      subst h
      rfl
    · exact Option.noConfusion h
  case camErr =>
    refine ⟨(fun heq => nomatch heq), fun _ => ?_⟩
    split at h
    · rw [Option.some_inj] at h
      subst h
      rfl
    · exact Option.noConfusion h
  case clickStart e =>
    refine ⟨(fun heq => nomatch heq), fun _ => ?_⟩
    split at h
    · rw [Option.some_inj] at h
      subst h
      exact countdownEffect_emits _ e
    · exact Option.noConfusion h
  case tick e =>
    refine ⟨(fun heq => nomatch heq), fun _ => ?_⟩
    split at h
    · rw [Option.some_inj] at h
      subst h
      exact countdownEffect_emits _ e
    · exact Option.noConfusion h

theorem complete_emission_rules_witness :
    (Ev.clickComplete = Ev.clickComplete →
      mI5.isOpen = true ∧ mI5.step = 3 ∧
      mS2.completeEmits = mI5.completeEmits + 1 ∧ mS2.isOpen = false) ∧
    (Ev.clickComplete ≠ Ev.clickComplete →
      mS2.completeEmits = mI5.completeEmits) :=
  complete_emission_rules mI5 mS2 Ev.clickComplete (by decide)

/-- C10 counterexample: a `getUserMedia` request still pending when the modal
closes resolves afterwards and is stored un-stopped: after open, close,
resolve, the modal is closed yet `streamRef` holds a stream whose tracks were
never stopped. -/
theorem closed_modal_live_stream :
    (Modal.run m0 [Ev.opened, Ev.closed, Ev.camOk]).map
      (fun s => (s.isOpen, s.streamRef, s.streams)) =
      some (false, some 0, [false]) := rfl

/-- C10 (amended): on each open-to-closed transition (the same cleanup runs
on unmount and before reopening) every track of the currently held stream is
stopped and the stream reference is set to null; however a camera request
still pending at close time escapes the cleanup and is stored un-stopped when
it resolves, so a closed modal can still come to hold a live stream. -/
theorem close_cleanup_stops_stream (s s' : ModalState) (i : Nat)
    (h : Modal.next s Ev.closed = some s') (hi : s.streamRef = some i) :
    s'.isOpen = false ∧ s'.streamRef = none ∧
    s'.streams = s.streams.set i true := by
  simp only [Modal.next] at h
  split at h
  · rw [Option.some_inj] at h
    subst h
    refine ⟨rfl, rfl, ?_⟩
    show (match s.streamRef with
          | some j => s.streams.set j true
          | none => s.streams) = s.streams.set i true
    rw [hi]
  · exact Option.noConfusion h

theorem close_cleanup_stops_stream_witness :
    mC1.isOpen = false ∧ mC1.streamRef = none ∧
    mC1.streams = mI5.streams.set 0 true :=
  close_cleanup_stops_stream mI5 mC1 0 (by decide) rfl

/-- C7: after the startup effect completes (the model load attempt having
either succeeded, failed, or been skipped because the model was already
ready), the calibration modal is open if and only if `isCalibrationNeeded()`
holds, i.e. the persisted calibration state is NOT_CALIBRATED. -/
theorem startup_auto_trigger_iff_needed (svc : ServiceState)
    (notif : NotifState) (cfg : DetectionConfig) (loadOk : Bool) :
    (checkCalibration { app := appInit, notif := notif, svc := svc,
                        svcConfig := cfg } loadOk).app.showCalibration =
      svc.isCalibrationNeeded := by
  obtain ⟨mr, b, c⟩ := svc
  cases mr <;> cases loadOk <;> cases c <;> rfl

/-- C8: an explicit recalibration request is exactly the sequence clear then
show: `handleRecalibrate` equals `clearCalibrationData` applied first,
producing an intermediate state in which calibration is already needed while
the modal is not yet shown, followed by opening the modal; afterwards the
baseline is gone, `isCalibrationNeeded()` is true and the workflow is shown. -/
theorem handleRecalibrate_clear_before_show (w : World) :
    handleRecalibrate w =
      { { w with svc := w.svc.clearCalibrationData } with
        app := { ({ w with svc := w.svc.clearCalibrationData } : World).app with
                 showCalibration := true } } ∧
    ({ w with svc := w.svc.clearCalibrationData } : World).svc.isCalibrationNeeded
      = true ∧
    ({ w with svc := w.svc.clearCalibrationData } : World).app.showCalibration
      = w.app.showCalibration ∧
    (handleRecalibrate w).app.showCalibration = true ∧
    (handleRecalibrate w).svc.baseline = none ∧
    (handleRecalibrate w).svc.isCalibrationNeeded = true :=
  ⟨rfl, rfl, rfl, rfl, rfl, rfl⟩

/-- C3 counterexample: changing the slouch threshold through the settings
panel updates only the `App`-local settings record; the configuration the
detection service consumes on its next classify/calibrate call still holds
the old value, so the next call does not observe the update. -/
theorem stale_threshold_counterexample :
    (handleSettingChange w0 SettingKey.slouchThreshold
      (SettingValue.num 25)).app.settings.slouchThreshold = 25 ∧
    (handleSettingChange w0 SettingKey.slouchThreshold
      (SettingValue.num 25)).svcConfig.slouchThreshold = 20 ∧
    (20 : ℚ) ≠ 25 := by
  refine ⟨rfl, rfl, by decide⟩

/-- C3 (amended): `handleSettingChange` immediately propagates
`enableNotifications` and `notificationInterval` to `NotificationService`,
but never writes the detection service or the configuration it consumes, so
updates to `shoulderAlignmentThreshold`, `slouchThreshold` and
`detectionConfidence` only change the `App`-local settings record and are not
observed by subsequent classification or calibration calls. -/
theorem handleSettingChange_effects (w : World) (k : SettingKey)
    (v : SettingValue) (b : Bool) (q : ℚ) :
    (handleSettingChange w k v).svcConfig = w.svcConfig ∧
    (handleSettingChange w k v).svc = w.svc ∧
    (handleSettingChange w SettingKey.enableNotifications
      (SettingValue.flag b)).notif.enabled = b ∧
    (handleSettingChange w SettingKey.notificationInterval
      (SettingValue.num q)).notif.cooldownMs = q ∧
    (handleSettingChange w SettingKey.slouchThreshold
      (SettingValue.num q)).app.settings.slouchThreshold = q ∧
    (handleSettingChange w SettingKey.slouchThreshold
      (SettingValue.num q)).notif = w.notif ∧
    (handleSettingChange w SettingKey.detectionConfidence
      (SettingValue.num q)).notif = w.notif := by
  refine ⟨?_, ?_, rfl, rfl, rfl, rfl, rfl⟩ <;> cases k <;> cases v <;> rfl

end PostureApp
